import Mathlib

/-!
Shallow embedding of the IMS analytics API (src/app.py).

The service is a read-only Flask API over a `borrowings`/`items` store:
an API-key guard (`require_api_key`), a TTL cache (`cache_get`/`cache_set`),
and five report handlers (`top_books`, `recs`, `borrowings_trend`,
`top_categories`, `overdue_stats`) plus `health` and `root`.

Modelling conventions:
  * wall-clock time (`time.time()`, SQL `NOW()`) is an explicit `Int`
    argument `now`; timestamps in rows are `Int` seconds;
  * the process-wide cache dict is explicit state, threaded through each
    handler; a handler returns its response, the final cache state, and
    instrumentation counters (number of cache reads, number of SQL
    statements executed) so that "performs no further work" is provable;
  * SQL result sets are lists of records; `GROUP BY` is modelled by
    deduplicating group keys and filtering; `ORDER BY` by a stable
    insertion sort on the ordering column (ties are storage-defined in
    SQL, a fixed stable order in the model); `SUM` over an empty set is
    SQL `NULL`, i.e. `Option.none`;
  * Python truthiness (`if not user_id`, `if cached`) is modelled by
    explicit falsiness tests on the corresponding values.
-/

namespace IMS

/-! ## Python / SQL primitive helpers -/

/-- Python `str.strip()` on a character list: drop leading and trailing
whitespace. -/
def pyStrip (l : List Char) : List Char :=
  ((l.dropWhile Char.isWhitespace).reverse.dropWhile Char.isWhitespace).reverse

/-- Model of Python `int(s)` as used by Flask's `args.get(name, type=int)`:
leading/trailing whitespace is stripped, an optional sign is allowed, the
rest must be decimal digits; any failure yields `none` (Flask returns the
default on a conversion error). -/
def parsePyInt (s : String) : Option Int :=
  let t := pyStrip s.toList
  let core := match t with
    | '-' :: rest => rest
    | '+' :: rest => rest
    | l => l
  if !core.isEmpty && core.all Char.isDigit then
    let n : Nat := core.foldl (fun acc c => acc * 10 + (c.toNat - 48)) 0
    some (if t.head? == some '-' then -(n : Int) else (n : Int))
  else none

/-- The decimal digit characters, for rendering integers into cache keys. -/
def digitChar : Nat → Char
  | 0 => '0'
  | 1 => '1'
  | 2 => '2'
  | 3 => '3'
  | 4 => '4'
  | 5 => '5'
  | 6 => '6'
  | 7 => '7'
  | 8 => '8'
  | _ => '9'

/-- Decimal digits of a natural number, most significant first; the fuel
argument bounds the recursion depth (any fuel above the digit count gives
the full rendering). -/
def natDecimalAux : Nat → Nat → List Char
  | 0, _ => []
  | fuel + 1, n =>
    if n < 10 then [digitChar n]
    else natDecimalAux fuel (n / 10) ++ [digitChar (n % 10)]

/-- Decimal rendering of a natural number. -/
def natDecimal (n : Nat) : String :=
  ⟨natDecimalAux (n + 1) n⟩

/-- Python `str()` of an integer, as interpolated into an f-string. -/
def intDecimal : Int → String
  | .ofNat n => natDecimal n
  | .negSucc n => ⟨'-' :: (natDecimal (n + 1)).data⟩

/-- Model of `request.args.get(name, type=int)`: `none` when the query
parameter is absent, otherwise Python `int` conversion with failure as
`none`. -/
def parseIntParam : Option String → Option Int
  | none => none
  | some s => parsePyInt s

/-- Python truthiness of an optional string (`not API_KEY`): `None` and the
empty string are falsy. -/
def pyStrFalsy : Option String → Bool
  | none => true
  | some s => s == ""

/-- SQL `SUM` of a list of (non-null) integers: `NULL` on an empty set,
otherwise the arithmetic sum. -/
def sqlSum (l : List Int) : Option Int :=
  match l with
  | [] => none
  | _ => some l.sum

/-- SQL comparison `a < b` where `a` may be `NULL`: a `NULL` comparand makes
the predicate not hold (the `CASE WHEN` treats SQL `NULL` as false). -/
def nullLt (a : Option Int) (b : Int) : Bool :=
  match a with
  | some x => x < b
  | none => false

/-- SQL comparison `a >= b` where `a` may be `NULL`; `NULL` does not hold. -/
def nullGe (a : Option Int) (b : Int) : Bool :=
  match a with
  | some x => b ≤ x
  | none => false

/-- PostgreSQL `TRIM(s)` with the default trim character: strips leading and
trailing space characters (U+0020) only — not tabs or other whitespace. -/
def pgTrim (s : String) : String :=
  ⟨((s.toList.dropWhile (· = ' ')).reverse.dropWhile (· = ' ')).reverse⟩

/-! ## Data model: rows of the external store -/

/-- A row of the `items` table (the columns this service reads). -/
structure Item where
  id : Int
  name : String
  category : Option String
deriving DecidableEq, Repr

/-- A row of the `borrowings` table (the columns this service reads);
date columns are nullable timestamps. -/
structure Borrowing where
  id : Int
  user_id : Int
  item_id : Int
  approval_date : Option Int
  due_date : Option Int
  return_date : Option Int
deriving DecidableEq, Repr

/-- The relational store the queries run against. -/
structure Database where
  borrowings : List Borrowing
  items : List Item
deriving DecidableEq, Repr

/-! ## TTL cache (`_cache`, `cache_get`, `cache_set`) -/

/-- The process-wide cache: a mapping from string key to
`(payload, stored-at timestamp)`.  Modelled as an association list where
`cache_set` prepends and `cache_get` reads the most recent binding, which
matches dict lookup after overwriting assignment. -/
abbrev TtlCache (α : Type) := List (String × α × Int)

/-- `cache_get(k, ttl)`: `None` when the key is absent (`_cache.get(k)` is
`None`, the only falsy case of the stored pair), `None` when
`now - stored_at > ttl`, otherwise the stored payload — even a falsy one. -/
def cache_get {α : Type} (c : TtlCache α) (k : String) (ttl : Int) (now : Int) :
    Option α :=
  match c.find? (fun e => e.1 == k) with
  | none => none
  | some (_, data, ts) => if now - ts > ttl then none else some data

/-- `cache_set(k, data)`: store `(data, time.time())` under `k`. -/
def cache_set {α : Type} (c : TtlCache α) (k : String) (data : α) (now : Int) :
    TtlCache α :=
  (k, data, now) :: c

/-! ## Result-row shapes of the five report queries -/

/-- A `/top-books` row: `i.id, i.name, COUNT(b.id) AS borrow_count`. -/
structure TBRow where
  id : Int
  name : String
  borrow_count : Int
deriving DecidableEq, Repr

/-- One element of a recommendation's `reasons` aggregate:
`json_build_object('item_id', …, 'title', …, 'count', …)`. -/
structure Reason where
  item_id : Int
  title : String
  count : Int
deriving DecidableEq, Repr

/-- A row of the recommendation SQL query before Python shaping:
`f.rec_item AS id, i.name, f.score::int, json_agg(…) AS reasons`. -/
structure RecRow where
  id : Int
  name : String
  score : Int
  reasons : List Reason
deriving DecidableEq, Repr

/-- A `/recs` response row after the Python shaping loop added `because`. -/
structure RecOut where
  id : Int
  name : String
  score : Int
  reasons : List Reason
  because : List String
deriving DecidableEq, Repr

/-- A `/borrowings-trend` row: truncated day and count.  The calendar day of
a timestamp is modelled as its day number `t / 86400`. -/
structure TrendRow where
  day : Int
  count : Int
deriving DecidableEq, Repr

/-- A `/top-categories` row: normalized category label and count. -/
structure CatRow where
  category : String
  count : Int
deriving DecidableEq, Repr

/-- The `/overdue-stats` row: the three `SUM(CASE …)::int` columns, each
`NULL` (i.e. `none`) when the aggregate ranges over zero rows. -/
structure OverdueStats where
  overdue_now : Option Int
  borrowed_now : Option Int
  returned_this_month : Option Int
deriving DecidableEq, Repr

/-- A value stored in the cache / served as a 200 JSON body: one of the five
endpoints' result shapes. -/
inductive Payload where
  | topBooks : List TBRow → Payload
  | recsRows : List RecOut → Payload
  | trend : List TrendRow → Payload
  | cats : List CatRow → Payload
  | overdue : OverdueStats → Payload
deriving DecidableEq, Repr

/-- Python truthiness of a cached payload (`if cached:`): a list is truthy
iff non-empty; the overdue-stats dict always has its three keys, so it is
always truthy. -/
def Payload.truthy : Payload → Bool
  | .topBooks rs => !rs.isEmpty
  | .recsRows rs => !rs.isEmpty
  | .trend rs => !rs.isEmpty
  | .cats rs => !rs.isEmpty
  | .overdue _ => true

/-- An HTTP response of the service. -/
inductive Response where
  | payload : Payload → Response
  | healthOk : Response
  | rootInfo : Response
  | unauthorized : Response
  | badRequest : String → Response
deriving DecidableEq, Repr

/-- The HTTP status code of a response: `jsonify(...)` alone is 200,
`jsonify({"error": "Unauthorized"}), 401` is 401, and the validation
failure `jsonify({"error": msg}), 400` is 400. -/
def Response.status : Response → Nat
  | .payload _ => 200
  | .healthOk => 200
  | .rootInfo => 200
  | .unauthorized => 401
  | .badRequest _ => 400

/-- The outcome of running one handler: response, final cache state, and
instrumentation — how many `cache_get` calls and how many SQL statements
(`cur.execute`) the handler performed. -/
structure HResult where
  resp : Response
  cache : TtlCache Payload
  cacheReads : Nat
  dbQueries : Nat
deriving DecidableEq, Repr

/-! ## Access guard -/

/-- `require_api_key()`: when `API_KEY` is unset or empty (Python falsy) the
guard is disabled; otherwise the `X-API-KEY` header (absent = `None`) must
equal it, else a 401 `{"error": "Unauthorized"}` short-circuit response. -/
def require_api_key (apiKey header : Option String) : Option Response :=
  if pyStrFalsy apiKey then none
  else if header == apiKey then none
  else some .unauthorized

/-! ## Ordering relations used by the `ORDER BY` clauses -/

/-- `ORDER BY borrow_count DESC` on `/top-books` rows. -/
def tbDesc (a b : TBRow) : Prop := b.borrow_count ≤ a.borrow_count

instance : DecidableRel tbDesc :=
  fun a b => inferInstanceAs (Decidable (b.borrow_count ≤ a.borrow_count))

/-- `ORDER BY score DESC` on `(rec_item, score)` pairs (the `filtered` CTE). -/
def pairScoreDesc (a b : Int × Int) : Prop := b.2 ≤ a.2

instance : DecidableRel pairScoreDesc :=
  fun a b => inferInstanceAs (Decidable (b.2 ≤ a.2))

/-- `json_agg(… ORDER BY c.co_count DESC)` on reason triples. -/
def reasonDesc (a b : Reason) : Prop := b.count ≤ a.count

instance : DecidableRel reasonDesc :=
  fun a b => inferInstanceAs (Decidable (b.count ≤ a.count))

instance : IsTotal Reason reasonDesc :=
  ⟨fun a b => (le_total b.count a.count).imp id id⟩

instance : IsTrans Reason reasonDesc :=
  ⟨fun _ _ _ h1 h2 => le_trans h2 h1⟩

/-- `ORDER BY f.score DESC` on recommendation rows. -/
def recScoreDesc (a b : RecRow) : Prop := b.score ≤ a.score

instance : DecidableRel recScoreDesc :=
  fun a b => inferInstanceAs (Decidable (b.score ≤ a.score))

/-- `ORDER BY count DESC` on `/top-categories` rows. -/
def catDesc (a b : CatRow) : Prop := b.count ≤ a.count

instance : DecidableRel catDesc :=
  fun a b => inferInstanceAs (Decidable (b.count ≤ a.count))

instance : IsTotal CatRow catDesc :=
  ⟨fun a b => (le_total b.count a.count).imp id id⟩

instance : IsTrans CatRow catDesc :=
  ⟨fun _ _ _ h1 h2 => le_trans h2 h1⟩

/-- `ORDER BY day ASC` on `/borrowings-trend` rows. -/
def trendAsc (a b : TrendRow) : Prop := a.day ≤ b.day

instance : DecidableRel trendAsc :=
  fun a b => inferInstanceAs (Decidable (a.day ≤ b.day))

/-! ## The five report queries -/

/-- The `/top-books` query: join `borrowings` with `items` on `item_id`,
group by `(i.id, i.name)`, count rows per group, order by count descending
and keep 5.  `GROUP BY` is modelled by the deduplicated key list (so an
item with no borrowings yields no row, as under an inner join). -/
def topBooksQuery (db : Database) : List TBRow :=
  let joined := db.borrowings.flatMap fun b =>
    (db.items.filter fun i => i.id == b.item_id).map fun i => (i.id, i.name)
  ((joined.dedup.map fun g =>
      TBRow.mk g.1 g.2 ((joined.filter (· == g)).length : Int)).insertionSort
    tbDesc).take 5

/-- `SELECT DISTINCT b.item_id FROM borrowings b WHERE b.user_id = uid`. -/
def userItemsQuery (bs : List Borrowing) (uid : Int) : List Int :=
  ((bs.filter fun b => b.user_id == uid).map (·.item_id)).dedup

/-- A row of the `co` CTE: `(rec_item, reason_item, co_count)`. -/
structure CoRow where
  rec_item : Int
  reason_item : Int
  co_count : Int
deriving DecidableEq, Repr

/-- The `co` CTE: self-join of `borrowings` on equal `user_id` and distinct
`item_id`, restricted to left rows whose item the user borrowed, grouped by
`(rec_item, reason_item)` with `COUNT(*)`. -/
def coQuery (bs : List Borrowing) (user_items : List Int) : List CoRow :=
  let pairs : List (Int × Int) := bs.flatMap fun b1 =>
    if b1.item_id ∈ user_items then
      (bs.filter fun b2 =>
          b1.user_id == b2.user_id && b1.item_id != b2.item_id).map
        fun b2 => (b2.item_id, b1.item_id)
    else []
  pairs.dedup.map fun g => CoRow.mk g.1 g.2 ((pairs.filter (· == g)).length : Int)

/-- The `scores` CTE: `SUM(co_count)` per `rec_item`. -/
def scoresQuery (co : List CoRow) : List (Int × Int) :=
  ((co.map (·.rec_item)).dedup).map fun r =>
    (r, ((co.filter fun c => c.rec_item == r).map (·.co_count)).sum)

/-- The `filtered` CTE: scores of items the user has not borrowed, ordered
by score descending, `LIMIT 10`. -/
def recsFiltered (scores : List (Int × Int)) (user_items : List Int) :
    List (Int × Int) :=
  ((scores.filter fun s => !(user_items.contains s.1)).insertionSort
    pairScoreDesc).take 10

/-- A row of the final recommendation join, before grouping:
`(f.rec_item, i.name, f.score, c.reason_item, i2.name, c.co_count)`. -/
structure JoinRow where
  rec_item : Int
  name : String
  score : Int
  reason_item : Int
  title : String
  co_count : Int
deriving DecidableEq, Repr

/-- The `GROUP BY f.rec_item, i.name, f.score` key of a join row. -/
def groupKey (j : JoinRow) : Int × String × Int := (j.rec_item, j.name, j.score)

/-- The final `SELECT`'s join: `filtered × co × items × items` on
`c.rec_item = f.rec_item`, `i.id = f.rec_item`, `i2.id = c.reason_item`. -/
def recsJoin (db : Database) (filtered : List (Int × Int)) (co : List CoRow) :
    List JoinRow :=
  filtered.flatMap fun f =>
    (co.filter fun c => c.rec_item == f.1).flatMap fun c =>
      (db.items.filter fun i => i.id == f.1).flatMap fun i =>
        (db.items.filter fun i2 => i2.id == c.reason_item).map fun i2 =>
          JoinRow.mk f.1 i.name f.2 c.reason_item i2.name c.co_count

/-- One output group of the final `SELECT`: its key columns together with
`json_agg(json_build_object(…) ORDER BY c.co_count DESC)` over the group. -/
def recsGroupRow (joined : List JoinRow) (g : Int × String × Int) : RecRow :=
  RecRow.mk g.1 g.2.1 g.2.2
    (((joined.filter fun j => groupKey j == g).map fun j =>
        Reason.mk j.reason_item j.title j.co_count).insertionSort reasonDesc)

/-- The `co` CTE instantiated with the target user's distinct items. -/
def recsCo (db : Database) (uid : Int) : List CoRow :=
  coQuery db.borrowings (userItemsQuery db.borrowings uid)

/-- The final join's row set for the recommendation query. -/
def recsJoined (db : Database) (uid : Int) : List JoinRow :=
  recsJoin db
    (recsFiltered (scoresQuery (recsCo db uid)) (userItemsQuery db.borrowings uid))
    (recsCo db uid)

/-- The whole recommendation SQL query: group the final join by
`(rec_item, name, score)`, aggregate reasons per group, `ORDER BY f.score
DESC LIMIT 5`. -/
def recsQuery (db : Database) (uid : Int) : List RecRow :=
  (((((recsJoined db uid).map groupKey).dedup).map
      (recsGroupRow (recsJoined db uid))).insertionSort recScoreDesc).take 5

/-- The Python shaping loop over a recommendation row: `reasons` is already
structured in the model (the `json.loads` fallback is the identity here,
and every element is a dict), and `because` is the titles of the first two
reasons (`[x.get("title") for x in rs[:2] if isinstance(x, dict)]`). -/
def shapeRec (r : RecRow) : RecOut :=
  RecOut.mk r.id r.name r.score r.reasons ((r.reasons.take 2).map (·.title))

/-- The `/borrowings-trend` query: borrowings with a non-null
`approval_date` in the last `days` days, grouped by the calendar day of
`approval_date` (`date_trunc('day', …)`, modelled as the day number
`t / 86400`), counted, ordered by day ascending. -/
def trendQuery (bs : List Borrowing) (now days : Int) : List TrendRow :=
  let inRange := bs.filter fun b =>
    match b.approval_date with
    | none => false
    | some d => decide (now - 86400 * days ≤ d)
  let dayOf : Borrowing → Int := fun b => (b.approval_date.getD 0) / 86400
  ((inRange.map dayOf).dedup.map fun k =>
      TrendRow.mk k ((inRange.filter fun b => dayOf b == k).length : Int)).insertionSort
    trendAsc

/-- `COALESCE(NULLIF(TRIM(i.category), ''), 'Uncategorised')`: a `NULL`
category, or one whose space-trimmed form is empty, becomes
`"Uncategorised"`; otherwise the label is the space-trimmed category. -/
def normCategory : Option String → String
  | none => "Uncategorised"
  | some c => if pgTrim c = "" then "Uncategorised" else pgTrim c

/-- The `/top-categories` query: join borrowings with items, group by the
normalized category label, count, order by count descending, `LIMIT 6`. -/
def topCategoriesQuery (db : Database) : List CatRow :=
  let joined := db.borrowings.flatMap fun b =>
    (db.items.filter fun i => i.id == b.item_id).map fun i => normCategory i.category
  ((joined.dedup.map fun k =>
      CatRow.mk k ((joined.filter (· == k)).length : Int)).insertionSort
    catDesc).take 6

/-- The `/overdue-stats` query: three `SUM(CASE … THEN 1 ELSE 0 END)::int`
aggregates over all borrowings.  `monthStart` stands for
`date_trunc('month', NOW())`.  Each sum is SQL `NULL` when the table is
empty. -/
def overdueStatsQuery (bs : List Borrowing) (now monthStart : Int) :
    OverdueStats :=
  OverdueStats.mk
    (sqlSum (bs.map fun b =>
      if b.return_date = none ∧ nullLt b.due_date now = true then 1 else 0))
    (sqlSum (bs.map fun b => if b.return_date = none then 1 else 0))
    (sqlSum (bs.map fun b =>
      if nullGe b.return_date monthStart = true then 1 else 0))

/-! ## Endpoint handlers

Each protected handler first runs the guard, then a cache read with its
per-endpoint TTL (`if cached:` is Python truthiness of the returned
payload), and on a miss executes its query, stores the result, and serves
it. -/

/-- Python truthiness of the value returned by `cache_get` (`if cached:`):
`None` is falsy, and so is a falsy payload such as an empty list. -/
def optTruthy : Option Payload → Bool
  | none => false
  | some p => p.truthy

/-- `GET /health`: `{"ok": true}`, no guard, no cache, no query. -/
def health (_apiKey _header : Option String) : Response :=
  .healthOk

/-- `GET /`: the service descriptor, no guard, no cache, no query. -/
def root (_apiKey _header : Option String) : Response :=
  .rootInfo

/-- The cache-miss branch of `/top-books`: run the query, store under
`"top-books"`, serve. -/
def topBooksCompute (now : Int) (db : Database) (cache : TtlCache Payload) :
    HResult :=
  let rows := topBooksQuery db
  HResult.mk (.payload (.topBooks rows))
    (cache_set cache "top-books" (.topBooks rows) now) 1 1

/-- `GET /top-books`: guard, cache read with TTL 60, query on miss. -/
def top_books (apiKey header : Option String) (now : Int) (db : Database)
    (cache : TtlCache Payload) : HResult :=
  match require_api_key apiKey header with
  | some r => HResult.mk r cache 0 0
  | none =>
    match cache_get cache "top-books" 60 now with
    | some p =>
      if p.truthy then HResult.mk (.payload p) cache 1 0
      else topBooksCompute now db cache
    | none => topBooksCompute now db cache

/-- The cache key `f"recs:{user_id}"`. -/
def recsKey (uid : Int) : String := "recs:" ++ intDecimal uid

/-- The cache-miss branch of `/recs`: the distinct-items query first; with
no history, `[]` is served immediately and nothing is cached; otherwise the
recommendation query runs, the rows are shaped, stored and served. -/
def recsCompute (uid : Int) (now : Int) (db : Database)
    (cache : TtlCache Payload) : HResult :=
  if (userItemsQuery db.borrowings uid).isEmpty then
    HResult.mk (.payload (.recsRows [])) cache 1 1
  else
    let rows := (recsQuery db uid).map shapeRec
    HResult.mk (.payload (.recsRows rows))
      (cache_set cache (recsKey uid) (.recsRows rows) now) 1 2

/-- `GET /recs`: guard; then `user_id = request.args.get("user_id",
type=int)` with the Python-falsy test `if not user_id` (rejecting `None`
and `0`) answered by 400; then cache read with TTL 60 and the computation
on a miss. -/
def recs (apiKey header userIdParam : Option String) (now : Int)
    (db : Database) (cache : TtlCache Payload) : HResult :=
  match require_api_key apiKey header with
  | some r => HResult.mk r cache 0 0
  | none =>
    match parseIntParam userIdParam with
    | none => HResult.mk (.badRequest "user_id is required") cache 0 0
    | some uid =>
      if uid = 0 then HResult.mk (.badRequest "user_id is required") cache 0 0
      else
        match cache_get cache (recsKey uid) 60 now with
        | some p =>
          if p.truthy then HResult.mk (.payload p) cache 1 0
          else recsCompute uid now db cache
        | none => recsCompute uid now db cache

/-- The cache key `f"borrowings-trend:{days}"`. -/
def trendKey (days : Int) : String := "borrowings-trend:" ++ intDecimal days

/-- The cache-miss branch of `/borrowings-trend`. -/
def trendCompute (days now : Int) (db : Database) (cache : TtlCache Payload) :
    HResult :=
  let rows := trendQuery db.borrowings now days
  HResult.mk (.payload (.trend rows))
    (cache_set cache (trendKey days) (.trend rows) now) 1 1

/-- `GET /borrowings-trend`: guard; `days = request.args.get("days",
default=30, type=int)` (absent or unparsable parameter gives 30); cache
read with TTL 120; query on miss. -/
def borrowings_trend (apiKey header daysParam : Option String) (now : Int)
    (db : Database) (cache : TtlCache Payload) : HResult :=
  match require_api_key apiKey header with
  | some r => HResult.mk r cache 0 0
  | none =>
    let days := (parseIntParam daysParam).getD 30
    match cache_get cache (trendKey days) 120 now with
    | some p =>
      if p.truthy then HResult.mk (.payload p) cache 1 0
      else trendCompute days now db cache
    | none => trendCompute days now db cache

/-- The cache-miss branch of `/top-categories`. -/
def topCategoriesCompute (now : Int) (db : Database)
    (cache : TtlCache Payload) : HResult :=
  let rows := topCategoriesQuery db
  HResult.mk (.payload (.cats rows))
    (cache_set cache "top-categories" (.cats rows) now) 1 1

/-- `GET /top-categories`: guard, cache read with TTL 300, query on miss. -/
def top_categories (apiKey header : Option String) (now : Int) (db : Database)
    (cache : TtlCache Payload) : HResult :=
  match require_api_key apiKey header with
  | some r => HResult.mk r cache 0 0
  | none =>
    match cache_get cache "top-categories" 300 now with
    | some p =>
      if p.truthy then HResult.mk (.payload p) cache 1 0
      else topCategoriesCompute now db cache
    | none => topCategoriesCompute now db cache

/-- The cache-miss branch of `/overdue-stats`.  An ungrouped aggregate
query always yields exactly one row, so `cur.fetchone()` is modelled as
`some` of the aggregate triple; the Python `dict(row) if row else
{… all zeros …}` fallback therefore always takes the `dict(row)` arm. -/
def overdueCompute (now monthStart : Int) (db : Database)
    (cache : TtlCache Payload) : HResult :=
  let row : Option OverdueStats := some (overdueStatsQuery db.borrowings now monthStart)
  let out := match row with
    | some r => r
    | none => OverdueStats.mk (some 0) (some 0) (some 0)
  HResult.mk (.payload (.overdue out))
    (cache_set cache "overdue-stats" (.overdue out) now) 1 1

/-- `GET /overdue-stats`: guard, cache read with TTL 60, query on miss. -/
def overdue_stats (apiKey header : Option String) (now monthStart : Int)
    (db : Database) (cache : TtlCache Payload) : HResult :=
  match require_api_key apiKey header with
  | some r => HResult.mk r cache 0 0
  | none =>
    match cache_get cache "overdue-stats" 60 now with
    | some p =>
      if p.truthy then HResult.mk (.payload p) cache 1 0
      else overdueCompute now monthStart db cache
    | none => overdueCompute now monthStart db cache

/-! ## Shared lemmas -/

/-- Whatever branch the `/recs` cache-miss computation takes, it answers
200 after exactly one cache read. -/
theorem recsCompute_ok (uid now : Int) (db : Database)
    (cache : TtlCache Payload) :
    (recsCompute uid now db cache).resp.status = 200 ∧
    (recsCompute uid now db cache).cacheReads = 1 := by
  unfold recsCompute
  split
  · exact ⟨rfl, rfl⟩
  · exact ⟨rfl, rfl⟩

/-- Reading back a key just written: a hit while `now2 - now ≤ ttl`, a miss
afterwards. -/
theorem cache_get_after_set {α : Type} (c : TtlCache α) (k : String) (v : α)
    (t now now2 : Int) :
    cache_get (cache_set c k v now) k t now2 =
      if now2 - now > t then none else some v := by
  simp [cache_get, cache_set, List.find?]

/-! ## Claim theorems -/

/-- C3: for every cache key `k`, payload `v` and ttl `t > 0`, `cache_set k v`
followed immediately (same clock value) by `cache_get k t` returns `v`, and
once the clock has advanced so that `now2 - now > t` the same `cache_get`
is a miss. -/
theorem cache_set_then_get {α : Type} (c : TtlCache α) (k : String) (v : α)
    (t now now2 : Int) (ht : 0 < t) :
    cache_get (cache_set c k v now) k t now = some v ∧
    (now2 - now > t → cache_get (cache_set c k v now) k t now2 = none) := by
  constructor
  · rw [cache_get_after_set]
    exact if_neg (by omega)
  · intro h
    rw [cache_get_after_set]
    exact if_pos h

/-- C3 witness: a concrete set/get round trip with ttl 60 at clock 100,
hit at clock 100 and miss at clock 161. -/
theorem cache_set_then_get_witness :
    cache_get (cache_set ([] : TtlCache Nat) "k" 7 100) "k" 60 100 = some 7 ∧
    cache_get (cache_set ([] : TtlCache Nat) "k" 7 100) "k" 60 161 = none := by
  have h := cache_set_then_get ([] : TtlCache Nat) "k" 7 60 100 161 (by omega)
  exact ⟨h.1, h.2 (by omega)⟩

/-- C10: an API key configured as the empty string is Python-falsy, so the
guard is disabled exactly as when the key is unset: every request passes
and each protected handler behaves identically to the unset-key
development mode. -/
theorem empty_api_key_disables_guard (header uidP daysP : Option String)
    (now monthStart : Int) (db : Database) (cache : TtlCache Payload) :
    require_api_key (some "") header = none ∧
    top_books (some "") header now db cache =
      top_books none header now db cache ∧
    recs (some "") header uidP now db cache =
      recs none header uidP now db cache ∧
    borrowings_trend (some "") header daysP now db cache =
      borrowings_trend none header daysP now db cache ∧
    top_categories (some "") header now db cache =
      top_categories none header now db cache ∧
    overdue_stats (some "") header now monthStart db cache =
      overdue_stats none header now monthStart db cache :=
  ⟨rfl, rfl, rfl, rfl, rfl, rfl⟩

/-- C4: with a non-empty API key configured and a request whose `X-API-KEY`
header is missing or different, every protected endpoint answers 401
`{"error":"Unauthorized"}` with the cache untouched, zero cache reads and
zero SQL queries, while `/health` and `/` still answer 200. -/
theorem unauthorized_short_circuits (k : String) (hk : k ≠ "")
    (header : Option String) (hh : header ≠ some k)
    (uidP daysP : Option String) (now monthStart : Int) (db : Database)
    (cache : TtlCache Payload) :
    top_books (some k) header now db cache =
      HResult.mk .unauthorized cache 0 0 ∧
    recs (some k) header uidP now db cache =
      HResult.mk .unauthorized cache 0 0 ∧
    borrowings_trend (some k) header daysP now db cache =
      HResult.mk .unauthorized cache 0 0 ∧
    top_categories (some k) header now db cache =
      HResult.mk .unauthorized cache 0 0 ∧
    overdue_stats (some k) header now monthStart db cache =
      HResult.mk .unauthorized cache 0 0 ∧
    Response.status .unauthorized = 401 ∧
    (health (some k) header).status = 200 ∧
    (root (some k) header).status = 200 := by
  have hg : require_api_key (some k) header = some .unauthorized := by
    simp [require_api_key, pyStrFalsy, hk, hh]
  refine ⟨?_, ?_, ?_, ?_, ?_, rfl, rfl, rfl⟩ <;>
    simp [top_books, recs, borrowings_trend, top_categories, overdue_stats, hg]

/-- C4 witness: key "secret" configured, header absent: all five protected
endpoints 401 without work, `/health` and `/` 200. -/
theorem unauthorized_short_circuits_witness :
    top_books (some "secret") none 0 ⟨[], []⟩ [] =
      HResult.mk .unauthorized [] 0 0 ∧
    recs (some "secret") none (some "1") 0 ⟨[], []⟩ [] =
      HResult.mk .unauthorized [] 0 0 ∧
    borrowings_trend (some "secret") none none 0 ⟨[], []⟩ [] =
      HResult.mk .unauthorized [] 0 0 ∧
    top_categories (some "secret") none 0 ⟨[], []⟩ [] =
      HResult.mk .unauthorized [] 0 0 ∧
    overdue_stats (some "secret") none 0 0 ⟨[], []⟩ [] =
      HResult.mk .unauthorized [] 0 0 ∧
    Response.status .unauthorized = 401 ∧
    (health (some "secret") none).status = 200 ∧
    (root (some "secret") none).status = 200 :=
  unauthorized_short_circuits "secret" (by decide) none (by decide)
    (some "1") none 0 0 ⟨[], []⟩ []

/-- C1 at its failing input: on a store with zero borrowings the
`/overdue-stats` handler returns all three fields as SQL `NULL` (`none`),
not integer 0 — `SUM(CASE …)` over zero rows is `NULL`, the ungrouped
aggregate still yields one row, so the all-zero fallback dict is never
used; the null triple is also cached.  The second conjunct records that
this differs from the all-zero object the claim promises. -/
theorem overdue_stats_empty_store_nulls :
    overdue_stats none none 0 0 ⟨[], []⟩ [] =
      HResult.mk (.payload (.overdue ⟨none, none, none⟩))
        [("overdue-stats", .overdue ⟨none, none, none⟩, 0)] 1 1 ∧
    (OverdueStats.mk none none none ≠
      OverdueStats.mk (some 0) (some 0) (some 0)) := by
  decide

/-- C6: on the borrowing history {u1→itemA, u1→itemB, u2→itemA, u2→itemC}
(items 10 "A", 20 "B", 30 "C"), `/recs?user_id=1` returns exactly one
recommendation: item 30 "C" with score 1, a single reason triple
(item 10, title "A", count 1), and because = ["A"]. -/
theorem recs_concrete_example :
    recs none none (some "1") 0
      ⟨[⟨1, 1, 10, none, none, none⟩, ⟨2, 1, 20, none, none, none⟩,
        ⟨3, 2, 10, none, none, none⟩, ⟨4, 2, 30, none, none, none⟩],
       [⟨10, "A", none⟩, ⟨20, "B", none⟩, ⟨30, "C", none⟩]⟩ [] =
      HResult.mk
        (.payload (.recsRows [⟨30, "C", 1, [⟨10, "A", 1⟩], ["A"]⟩]))
        [("recs:1", .recsRows [⟨30, "C", 1, [⟨10, "A", 1⟩], ["A"]⟩], 0)]
        1 2 := by
  decide

/-- C2 counterexample: `user_id=-1` is a negative integer — not a positive
one — yet `/recs` does not answer 400: `if not user_id` is false for `-1`,
so the handler proceeds to the cache/query pipeline (here one cache read
and the user-items query on an empty store). -/
theorem recs_negative_user_id_passes :
    (-1 : Int) < 0 ∧
    (recs none none (some "-1") 0 ⟨[], []⟩ []).resp.status ≠ 400 ∧
    (recs none none (some "-1") 0 ⟨[], []⟩ []).cacheReads = 1 ∧
    (recs none none (some "-1") 0 ⟨[], []⟩ []).dbQueries = 1 := by
  decide

/-- C2 amended: `/recs` answers 400 `{"error": "user_id is required"}` with
no cache access and no query exactly when `user_id` is missing,
non-integer, or zero; for every *non-zero* parsed integer (negatives
included) the handler proceeds to the cache/query pipeline: it performs
the cache read and answers 200. -/
theorem recs_user_id_validation (apiKey header p : Option String)
    (hauth : require_api_key apiKey header = none) (now : Int)
    (db : Database) (cache : TtlCache Payload) :
    ((parseIntParam p = none ∨ parseIntParam p = some 0) →
      recs apiKey header p now db cache =
        HResult.mk (.badRequest "user_id is required") cache 0 0) ∧
    (∀ uid : Int, parseIntParam p = some uid → uid ≠ 0 →
      (recs apiKey header p now db cache).resp.status = 200 ∧
      (recs apiKey header p now db cache).cacheReads = 1) := by
  constructor
  · rintro (h | h) <;> simp [recs, hauth, h]
  · intro uid hp hu
    simp only [recs, hauth, hp]
    rw [if_neg hu]
    rcases hcg : cache_get cache (recsKey uid) 60 now with _ | q
    · exact recsCompute_ok uid now db cache
    · by_cases ht : q.truthy
      · simp [ht, Response.status]
      · simp only [ht, Bool.false_eq_true, if_false]
        exact recsCompute_ok uid now db cache

/-- C2 amended witness: `user_id=0` is rejected with 400 and no work. -/
theorem recs_user_id_validation_witness :
    recs none none (some "0") 5 ⟨[], []⟩ [] =
      HResult.mk (.badRequest "user_id is required") [] 0 0 :=
  (recs_user_id_validation none none (some "0") rfl 5 ⟨[], []⟩ []).1
    (Or.inr (by decide))

/-- C5: for a user whose distinct-borrowed-items set is empty, once the
request reaches the query stage (valid `user_id`, no truthy fresh cache
entry under the user's key), `/recs` answers `[]` immediately — only the
user-items query ran, not the recommendation query — and the cache state
is exactly the one the handler started with: no entry is written. -/
theorem recs_no_history_uncached (apiKey header p : Option String)
    (uid : Int) (now : Int) (db : Database) (cache : TtlCache Payload)
    (hauth : require_api_key apiKey header = none)
    (hp : parseIntParam p = some uid) (hu : uid ≠ 0)
    (hmiss : optTruthy (cache_get cache (recsKey uid) 60 now) = false)
    (hempty : userItemsQuery db.borrowings uid = []) :
    recs apiKey header p now db cache =
      HResult.mk (.payload (.recsRows [])) cache 1 1 := by
  simp only [recs, hauth, hp]
  rw [if_neg hu]
  rcases hcg : cache_get cache (recsKey uid) 60 now with _ | q
  · simp [recsCompute, hempty]
  · rw [hcg] at hmiss
    simp only [optTruthy] at hmiss
    simp [hmiss, recsCompute, hempty]

/-- C5 witness: an empty store, an empty cache, `user_id=5`: the response is
`[]`, one cache read, one query, cache left empty. -/
theorem recs_no_history_uncached_witness :
    recs none none (some "5") 0 ⟨[], []⟩ [] =
      HResult.mk (.payload (.recsRows [])) [] 1 1 :=
  recs_no_history_uncached none none (some "5") 5 0 ⟨[], []⟩ []
    rfl (by decide) (by decide) rfl rfl

/-- C9: a fresh cache entry holding a falsy payload (such as the empty
list) is never served as a hit: `if cached:` treats it as a miss, so the
handler re-runs its query and `cache_set` overwrites the entry.  Stated for
`/top-books`, `/borrowings-trend`, `/top-categories` and `/recs`; for
`/recs` the recommendation query always re-runs, and the entry is
overwritten whenever the handler caches at all, i.e. when the user has
history (the no-history result is never cached to begin with). -/
theorem falsy_cached_payload_is_miss
    (cache : TtlCache Payload) (now : Int) (db : Database)
    (p q u v : Payload) (s daysP : Option String) (uid : Int)
    (hp : cache_get cache "top-books" 60 now = some p)
    (hpf : p.truthy = false)
    (hu : cache_get cache (trendKey ((parseIntParam daysP).getD 30)) 120 now
      = some u)
    (huf : u.truthy = false)
    (hv : cache_get cache "top-categories" 300 now = some v)
    (hvf : v.truthy = false)
    (hq : cache_get cache (recsKey uid) 60 now = some q)
    (hqf : q.truthy = false)
    (hs : parseIntParam s = some uid) (hun : uid ≠ 0) :
    top_books none none now db cache =
      HResult.mk (.payload (.topBooks (topBooksQuery db)))
        (cache_set cache "top-books" (.topBooks (topBooksQuery db)) now) 1 1 ∧
    borrowings_trend none none daysP now db cache =
      HResult.mk
        (.payload (.trend
          (trendQuery db.borrowings now ((parseIntParam daysP).getD 30))))
        (cache_set cache (trendKey ((parseIntParam daysP).getD 30))
          (.trend (trendQuery db.borrowings now ((parseIntParam daysP).getD 30)))
          now) 1 1 ∧
    top_categories none none now db cache =
      HResult.mk (.payload (.cats (topCategoriesQuery db)))
        (cache_set cache "top-categories" (.cats (topCategoriesQuery db)) now)
        1 1 ∧
    1 ≤ (recs none none s now db cache).dbQueries ∧
    ((userItemsQuery db.borrowings uid).isEmpty = false →
      recs none none s now db cache =
        HResult.mk (.payload (.recsRows ((recsQuery db uid).map shapeRec)))
          (cache_set cache (recsKey uid)
            (.recsRows ((recsQuery db uid).map shapeRec)) now) 1 2) := by
  refine ⟨?_, ?_, ?_, ?_, ?_⟩
  · simp [top_books, require_api_key, pyStrFalsy, hp, hpf, topBooksCompute]
  · simp [borrowings_trend, require_api_key, pyStrFalsy, hu, huf, trendCompute]
  · simp [top_categories, require_api_key, pyStrFalsy, hv, hvf,
      topCategoriesCompute]
  · have hg : require_api_key (none : Option String) none = none := rfl
    simp only [recs, hg, hs]
    rw [if_neg hun, hq]
    simp only [hqf, Bool.false_eq_true, if_false]
    unfold recsCompute
    split
    · exact Nat.le_refl 1
    · exact Nat.le_succ 1
  · intro hne
    have hg : require_api_key (none : Option String) none = none := rfl
    simp only [recs, hg, hs]
    rw [if_neg hun, hq]
    simp only [hqf, Bool.false_eq_true, if_false]
    unfold recsCompute
    rw [hne]
    simp

/-- C9 witness: a cache whose four entries were all stored as empty lists
at clock 0, read back at clock 0 (fresh): each handler recomputes and
overwrites. -/
theorem falsy_cached_payload_is_miss_witness :
    top_books none none 0
      ⟨[⟨1, 1, 10, none, none, none⟩], [⟨10, "A", none⟩]⟩
      [("top-books", .topBooks [], 0), ("recs:1", .recsRows [], 0),
       ("borrowings-trend:30", .trend [], 0), ("top-categories", .cats [], 0)] =
      HResult.mk
        (.payload (.topBooks (topBooksQuery
          ⟨[⟨1, 1, 10, none, none, none⟩], [⟨10, "A", none⟩]⟩)))
        (cache_set
          [("top-books", .topBooks [], 0), ("recs:1", .recsRows [], 0),
           ("borrowings-trend:30", .trend [], 0), ("top-categories", .cats [], 0)]
          "top-books"
          (.topBooks (topBooksQuery
            ⟨[⟨1, 1, 10, none, none, none⟩], [⟨10, "A", none⟩]⟩)) 0) 1 1 ∧
    recs none none (some "1") 0
      ⟨[⟨1, 1, 10, none, none, none⟩], [⟨10, "A", none⟩]⟩
      [("top-books", .topBooks [], 0), ("recs:1", .recsRows [], 0),
       ("borrowings-trend:30", .trend [], 0), ("top-categories", .cats [], 0)] =
      HResult.mk
        (.payload (.recsRows ((recsQuery
          ⟨[⟨1, 1, 10, none, none, none⟩], [⟨10, "A", none⟩]⟩ 1).map shapeRec)))
        (cache_set
          [("top-books", .topBooks [], 0), ("recs:1", .recsRows [], 0),
           ("borrowings-trend:30", .trend [], 0), ("top-categories", .cats [], 0)]
          "recs:1"
          (.recsRows ((recsQuery
            ⟨[⟨1, 1, 10, none, none, none⟩], [⟨10, "A", none⟩]⟩ 1).map shapeRec))
          0) 1 2 := by
  have h := falsy_cached_payload_is_miss
    [("top-books", .topBooks [], 0), ("recs:1", .recsRows [], 0),
     ("borrowings-trend:30", .trend [], 0), ("top-categories", .cats [], 0)]
    0 ⟨[⟨1, 1, 10, none, none, none⟩], [⟨10, "A", none⟩]⟩
    (.topBooks []) (.recsRows []) (.trend []) (.cats [])
    (some "1") none 1
    (by decide) (by decide) (by decide) (by decide) (by decide) (by decide)
    (by decide) (by decide) (by decide) (by decide)
  exact ⟨h.1, h.2.2.2.2 (by decide)⟩

/-- C7: every row produced by the `/recs` pipeline has `because` equal to
the at-most-2-element prefix of its `reasons`' titles, and `reasons` — and
therefore that prefix — is ordered by descending co-occurrence count
(`reasonDesc`). -/
theorem recs_because_take_two_titles (db : Database) (uid : Int) (r : RecOut)
    (hr : r ∈ (recsQuery db uid).map shapeRec) :
    r.because = (r.reasons.map Reason.title).take 2 ∧
    List.Sorted reasonDesc r.reasons ∧
    List.Sorted reasonDesc (r.reasons.take 2) := by
  obtain ⟨r0, hr0, rfl⟩ := List.mem_map.mp hr
  simp only [recsQuery] at hr0
  have h1 := (List.mem_insertionSort recScoreDesc).mp (List.mem_of_mem_take hr0)
  obtain ⟨g, hg, rfl⟩ := List.mem_map.mp h1
  refine ⟨List.map_take .., ?_, ?_⟩
  · exact List.sorted_insertionSort reasonDesc _
  · exact (List.sorted_insertionSort reasonDesc _).sublist (List.take_sublist 2 _)

/-- C7 witness: the single row served for user 1 on the four-borrowing
store has because = take-2 prefix of its reason titles, both sorted. -/
theorem recs_because_take_two_titles_witness :
    (RecOut.mk 30 "C" 1 [⟨10, "A", 1⟩] ["A"]).because =
      ((RecOut.mk 30 "C" 1 [⟨10, "A", 1⟩] ["A"]).reasons.map Reason.title).take 2 ∧
    List.Sorted reasonDesc (RecOut.mk 30 "C" 1 [⟨10, "A", 1⟩] ["A"]).reasons ∧
    List.Sorted reasonDesc
      ((RecOut.mk 30 "C" 1 [⟨10, "A", 1⟩] ["A"]).reasons.take 2) :=
  recs_because_take_two_titles
    ⟨[⟨1, 1, 10, none, none, none⟩, ⟨2, 1, 20, none, none, none⟩,
      ⟨3, 2, 10, none, none, none⟩, ⟨4, 2, 30, none, none, none⟩],
     [⟨10, "A", none⟩, ⟨20, "B", none⟩, ⟨30, "C", none⟩]⟩ 1
    (RecOut.mk 30 "C" 1 [⟨10, "A", 1⟩] ["A"]) (by decide)

/-- C8 counterexample: a category consisting of a single tab character is
whitespace-only, yet its borrowing is *not* counted under "Uncategorised":
SQL `TRIM` strips only spaces, so the tab survives `NULLIF(TRIM(…), '')`
and the row is reported under the label "\t". -/
theorem top_categories_tab_not_folded :
    "\t".toList.all Char.isWhitespace = true ∧
    topCategoriesQuery
      ⟨[⟨1, 1, 1, none, none, none⟩], [⟨1, "T", some "\t"⟩]⟩ = [⟨"\t", 1⟩] ∧
    (∀ r ∈ topCategoriesQuery
        ⟨[⟨1, 1, 1, none, none, none⟩], [⟨1, "T", some "\t"⟩]⟩,
      r.category ≠ "Uncategorised") := by
  decide

/-- C8 amended: the category label of a borrowing is "Uncategorised"
exactly when the item's category is NULL, empty, or trims to empty under
*space* trimming (so all such borrowings aggregate into that single
label, while categories whose only content is other whitespace keep their
own label); the result rows carry pairwise-distinct labels, are ordered by
count descending, and number at most 6. -/
theorem top_categories_spec (db : Database) (c : Option String) :
    normCategory c =
      (if (match c with
           | none => true
           | some s => pgTrim s == "") = true
       then "Uncategorised" else pgTrim (c.getD "")) ∧
    List.Sorted catDesc (topCategoriesQuery db) ∧
    (topCategoriesQuery db).length ≤ 6 ∧
    ((topCategoriesQuery db).map CatRow.category).Nodup := by
  refine ⟨?_, ?_, ?_, ?_⟩
  · rcases c with _ | s
    · rfl
    · by_cases h : pgTrim s = ""
      · simp [normCategory, h]
      · simp [normCategory, h]
  · simp only [topCategoriesQuery]
    exact (List.sorted_insertionSort catDesc _).sublist (List.take_sublist 6 _)
  · simp only [topCategoriesQuery]
    exact List.length_take_le 6 _
  · simp only [topCategoriesQuery]
    apply List.Nodup.sublist ((List.take_sublist 6 _).map CatRow.category)
    apply (((List.perm_insertionSort catDesc _).map CatRow.category).nodup_iff).mpr
    rw [List.map_map]
    exact (List.map_id' _).symm ▸ List.nodup_dedup _

end IMS
